import Mathlib

/-!
# Verification of the Pulsar SDK core (`src/pulsar.js`)

A shallow embedding of the core of the Pulsar JavaScript SDK:

* the connection handshake (`Pulsar.init`, pulsar.js lines 15-56),
* the transport chokepoint (`Pulsar._send`, lines 2514-2526),
* the legacy-payload response normalizers of `getLayout`, `getLayoutSections`,
  `getLayoutFields` and `getSObjectSchema` (lines 426-449, 476-510, 543-571,
  722-739),
* the relationship path resolver (`Pulsar.resolveSOQLFieldPath`,
  lines 750-802).

JavaScript values are embedded as the inductive type `JVal`; truthiness,
member access, optional chaining (`?.`), `??` and `||` are given their
ECMAScript meaning on that type.  Stateful code (the handshake's
event-listener / timer race, the session fields `bridge` / `pulsar` /
`isInitialized`) is embedded as explicit state passing and a step function on
a machine state; the external events (bridge-ready notification, the 5000 ms
timeout) are fed to the machine as a list ordered by time of occurrence.
Fallible code returns `Except`.  The resolver is embedded against its two
collaborators `getSObjectSchema` and `read` (exactly the boundary at which
the repository's own tests exercise it) and additionally records the trace
of collaborator calls so that ordering and call-count properties can be
stated.
-/

namespace Pulsar

/-- JavaScript values, as far as the embedded code can observe them:
`undefined`, `null`, booleans, numbers (integral numbers suffice for this
code, which never computes arithmetic on host data), strings, arrays and
plain objects (ordered field lists; lookup takes the first binding). -/
inductive JVal : Type
  | jundef : JVal
  | jnull : JVal
  | jbool : Bool → JVal
  | jnum : Int → JVal
  | jstr : String → JVal
  | jarr : List JVal → JVal
  | jobj : List (String × JVal) → JVal

namespace JVal

/-- ECMAScript ToBoolean: `undefined`, `null`, `false`, `0`, `""` are falsy;
every other value (including empty arrays and objects) is truthy. -/
def truthy : JVal → Bool
  | jundef => false
  | jnull => false
  | jbool b => b
  | jnum n => !(n = 0)
  | jstr s => !(s = "")
  | jarr _ => true
  | jobj _ => true

/-- The JavaScript `||` operator: the left operand if truthy, else the
right operand. -/
def jsOr (a b : JVal) : JVal := if a.truthy then a else b

/-- The JavaScript `??` (nullish coalescing) operator: the left operand
unless it is `null` or `undefined`. -/
def nullish (a b : JVal) : JVal :=
  match a with
  | jundef => b
  | jnull => b
  | x => x

/-- ECMAScript ToString on a property key (used where the code indexes a
record with a schema-provided field name, `currentRecord?.[field.name]`).
Array elements stringify with `null`/`undefined` as the empty string. -/
def toPropKey : JVal → String
  | jundef => "undefined"
  | jnull => "null"
  | jbool true => "true"
  | jbool false => "false"
  | jnum n => toString n
  | jstr s => s
  | jarr xs => String.intercalate "," (xs.map fun v =>
      match v with
      | jundef => ""
      | jnull => ""
      | jstr s => s
      | jbool true => "true"
      | jbool false => "false"
      | jnum n => toString n
      | jarr _ => ""
      | jobj _ => "[object Object]")
  | jobj _ => "[object Object]"

/-- A canonical array-index key, as ECMAScript array element access
requires: a nonempty digit string without a leading zero (except `"0"`
itself). -/
def canonicalIndex (k : String) : Option Nat :=
  match k.toList with
  | [] => none
  | c :: cs =>
      if (c :: cs).all (fun d => d.isDigit) ∧ (c = '0' → cs = []) then
        some ((c :: cs).foldl (fun n d => n * 10 + (d.toNat - 48)) 0)
      else none

/-- Property read on a non-nullish base value: objects by key (first
binding wins), arrays by canonical numeric index or `length`, strings by
index or `length`; every other access yields `undefined`. -/
def getMember : JVal → String → JVal
  | jobj fs, k => ((fs.find? fun p => p.1 = k).map Prod.snd).getD jundef
  | jarr xs, k =>
      if k = "length" then jnum xs.length
      else
        match canonicalIndex k with
        | some n => (xs.get? n).getD jundef
        | none => jundef
  | jstr s, k =>
      if k = "length" then jnum s.length
      else
        match canonicalIndex k with
        | some n =>
            match s.toList.get? n with
            | some c => jstr (String.mk [c])
            | none => jundef
        | none => jundef
  | _, _ => jundef

/-- Test for `null`/`undefined`, the two values on which a property access
raises a TypeError and which `?.` short-circuits. -/
def isNullish : JVal → Bool
  | jundef => true
  | jnull => true
  | _ => false

/-- Optional-chained property read `base?.[k]`: `undefined` when the base is
`null` or `undefined`, otherwise an ordinary member read. -/
def getOpt (v : JVal) (k : String) : JVal :=
  if v.isNullish then jundef else v.getMember k

end JVal

open JVal

/-- The error conditions raised by the embedded code, one constructor per
`new Error(...)` site (plus the TypeError a property read on
`null`/`undefined` would raise in JavaScript). -/
inductive PErr : Type
  /-- Message `'Pulsar bridge not initialized. Call init() first.'`. -/
  | notInitialized : PErr
  /-- Message `'Pulsar is already initialized.'`. -/
  | alreadyInitialized : PErr
  /-- Message `'Pulsar bridge initialization timed out.'`. -/
  | timedOut : PErr
  /-- Rejection of `_send` on an error envelope; carries
  `response.data || 'Unknown Pulsar JSAPI error'`. -/
  | jsapi : JVal → PErr
  /-- Message `'Failed to parse ... response'` (argument names the operation). -/
  | parseFailure : String → PErr
  /-- Message `'Unexpected return type...'` (argument names the operation). -/
  | unexpectedType : String → PErr
  /-- JavaScript TypeError: property access on `null`/`undefined`. -/
  | typeError : PErr

/-- The generic fallback message used by `_send` when an error envelope
carries no (truthy) data. -/
def genericJsapiMessage : String := "Unknown Pulsar JSAPI error"

/-- A bridge handle as the handshake observes it: an identity (so that
distinct handles delivered by distinct events can be told apart) and the
optional `version` marker tested by `typeof this.bridge.version ===
'undefined'`. -/
structure Bridge : Type where
  id : Nat
  version : Option JVal

/-- The embedded host object `window.parent.pulsar`, as far as `init`
reads it: it exposes a (truthy) `bridge`.  Its sync-handler methods are
irrelevant to the handshake. -/
structure EmbeddedHost : Type where
  bridge : Bridge

/-- The session fields of a `Pulsar` instance: `this.bridge`,
`this.pulsar`, `this.isInitialized` (constructor, pulsar.js lines 8-12). -/
structure Session : Type where
  bridge : Option Bridge
  pulsarObj : Option EmbeddedHost
  isInitialized : Bool

/-- A freshly constructed session: `bridge = null`, `pulsar = null`,
`isInitialized = false`. -/
def Session.fresh : Session := ⟨none, none, false⟩

/-- A host response envelope `{ type, data }` as `_send`'s completion
callback reads it. -/
structure Envelope : Type where
  type : String
  data : JVal

/-- Embedding of `Pulsar._send` (pulsar.js lines 2514-2526), against a host
`send` primitive that maps the request to the envelope it calls back with.
The boolean records whether the host's `send` primitive was invoked; the
`Except` is the settlement of the returned promise.  With no bridge the
call rejects before touching the host; otherwise an `'error'`-typed
envelope rejects with `response.data || 'Unknown Pulsar JSAPI error'` and
any other envelope resolves with `response.data`. -/
def sendCall (s : Session) (host : JVal → Envelope) (request : JVal) :
    Bool × Except PErr JVal :=
  match s.bridge with
  | none => (false, .error .notInitialized)
  | some _ =>
      let response := host request
      if response.type = "error" then
        (true, .error (.jsapi (jsOr response.data (jstr genericJsapiMessage))))
      else
        (true, .ok response.data)

/-- The observable effects of the synchronous body of one `init()` call
(pulsar.js lines 15-56): how the call's promise settled (if it settled
synchronously), how many `WebViewJavascriptBridgeReady` listeners it
registered on the document, how many timeouts it armed, and whether it
(re-)adopted the embedded host's bridge. -/
structure InitEffects : Type where
  outcome : Option (Except PErr Unit)
  listenersAdded : Nat
  timersArmed : Nat
  adoptedEmbedded : Bool

/-- The synchronous part of `Pulsar.init` (pulsar.js lines 15-56).  `ctx`
is `window.parent?.pulsar` when its `bridge` is truthy.  Note the source
has no `return` after the `reject` on line 19: when `isInitialized` is
already true the promise rejects (a promise settles at most once, so the
later `resolve` is ignored), but the body still runs — in an embedded
context it re-assigns `this.pulsar`/`this.bridge`/`this.isInitialized`,
and in a native context it still registers a bridge-ready listener and
arms a 5000 ms timeout.  This function embeds that behavior exactly. -/
def initSync (ctx : Option EmbeddedHost) (s : Session) :
    Session × InitEffects :=
  let already := s.isInitialized
  match ctx with
  | some emb =>
      ({ bridge := some emb.bridge, pulsarObj := some emb,
         isInitialized := true },
       { outcome := some (if already then .error .alreadyInitialized else .ok ()),
         listenersAdded := 0, timersArmed := 0, adoptedEmbedded := true })
  | none =>
      (s,
       { outcome := if already then some (.error .alreadyInitialized) else none,
         listenersAdded := 1, timersArmed := 1, adoptedEmbedded := false })

/-- The state of one native-path handshake: the session fields, whether the
`WebViewJavascriptBridgeReady` listener is still registered on the
document, whether the 5000 ms timeout is still armed, how the `init()`
promise settled (`none` while pending), and how many times `bridge.init()`
has been invoked. -/
structure NState : Type where
  session : Session
  listenerActive : Bool
  timerActive : Bool
  settled : Option (Except PErr Bridge)
  bridgeInitCalls : Nat

/-- The two external occurrences that can reach a pending native
handshake: the document dispatching `WebViewJavascriptBridgeReady`
carrying a bridge handle, and the armed timeout firing (which the runtime
delivers exactly once, at the 5000 ms deadline, unless cancelled). -/
inductive Occ : Type
  | ready : Bridge → Occ
  | deadline : Occ

/-- The handshake state after the synchronous part of `init()` on a fresh
session in a native context (no embedded host): listener registered,
timeout armed, promise pending. -/
def nativeStart : NState :=
  { session := Session.fresh, listenerActive := true, timerActive := true,
    settled := none, bridgeInitCalls := 0 }

/-- One external occurrence delivered to the handshake (pulsar.js lines
32-53).  A `WebViewJavascriptBridgeReady` dispatch invokes `onBridgeReady`
only while the listener is registered: the handler cancels the timeout,
removes the listener, captures the bridge, calls `bridge.init()` when the
handle has no `version` marker, marks the session initialized and resolves.
The timeout body runs only while the timeout is armed: it removes the
listener and rejects with the timeout error. -/
def nstep (st : NState) : Occ → NState
  | .ready b =>
      if st.listenerActive then
        { session := { st.session with bridge := some b, isInitialized := true },
          listenerActive := false, timerActive := false,
          settled := some (.ok b),
          bridgeInitCalls :=
            st.bridgeInitCalls + (if b.version.isNone then 1 else 0) }
      else st
  | .deadline =>
      if st.timerActive then
        { st with listenerActive := false, timerActive := false,
                  settled := some (.error .timedOut) }
      else st

/-- Delivering a time-ordered list of external occurrences to the
handshake. -/
def nrun (st : NState) (occs : List Occ) : NState := occs.foldl nstep st

theorem nrun_nil (st : NState) : nrun st [] = st := rfl

theorem nrun_cons (st : NState) (o : Occ) (l : List Occ) :
    nrun st (o :: l) = nrun (nstep st o) l := rfl

/-- Once both the listener and the timer are disarmed, every further
occurrence leaves the handshake state unchanged. -/
theorem nstep_inert (st : NState) (h₁ : st.listenerActive = false)
    (h₂ : st.timerActive = false) (o : Occ) : nstep st o = st := by
  cases o <;> simp [nstep, h₁, h₂]

theorem nrun_inert (st : NState) (h₁ : st.listenerActive = false)
    (h₂ : st.timerActive = false) (l : List Occ) : nrun st l = st := by
  induction l with
  | nil => rfl
  | cons o l ih => rw [nrun_cons, nstep_inert st h₁ h₂ o]; exact ih

/-- Shape test used by `getLayout` (pulsar.js line 444): `typeof response
=== 'object' && response !== null`.  In JavaScript arrays and `null` have
`typeof` `'object'`; the `!== null` guard excludes `null` only. -/
def isObjectShape : JVal → Bool
  | .jnull => false
  | .jarr _ => true
  | .jobj _ => true
  | _ => false

/-- Test `Array.isArray`, used by `getLayoutSections` (line 505) and
`getLayoutFields` (line 566). -/
def isArrayShape : JVal → Bool
  | .jarr _ => true
  | _ => false

/-- Name of `typeof response`, as the normalizers report it in their error
messages. -/
def typeofName : JVal → String
  | .jundef => "undefined"
  | .jnull => "object"
  | .jbool _ => "boolean"
  | .jnum _ => "number"
  | .jstr _ => "string"
  | .jarr _ => "object"
  | .jobj _ => "object"

/-- The response-normalization step of `getLayout` (pulsar.js lines
436-448), abstracted over `JSON.parse` (a host primitive; `parse s = none`
embeds `JSON.parse(s)` throwing): a string is decoded (decode failure is
`'Failed to parse layout response'`), a non-null `typeof 'object'` value is
returned unchanged, anything else raises the unexpected-return-type
error. -/
def getLayoutNormalize (parse : String → Option JVal) (response : JVal) :
    Except PErr JVal :=
  match response with
  | .jstr s =>
      match parse s with
      | some v => .ok v
      | none => .error (.parseFailure "layout")
  | v =>
      if isObjectShape v then .ok v
      else .error (.unexpectedType "getLayout")

/-- The response-normalization step of `getLayoutSections` (pulsar.js
lines 497-509): a string is decoded, an array is returned unchanged,
anything else raises the unexpected-return-type error. -/
def getLayoutSectionsNormalize (parse : String → Option JVal)
    (response : JVal) : Except PErr JVal :=
  match response with
  | .jstr s =>
      match parse s with
      | some v => .ok v
      | none => .error (.parseFailure "layout sections")
  | v =>
      if isArrayShape v then .ok v
      else .error (.unexpectedType "getLayoutSections")

/-- The response-normalization step of `getLayoutFields` (pulsar.js lines
558-570): a string is decoded, an array is returned unchanged, anything
else raises the unexpected-return-type error. -/
def getLayoutFieldsNormalize (parse : String → Option JVal)
    (response : JVal) : Except PErr JVal :=
  match response with
  | .jstr s =>
      match parse s with
      | some v => .ok v
      | none => .error (.parseFailure "layout fields")
  | v =>
      if isArrayShape v then .ok v
      else .error (.unexpectedType "getLayoutFields")

/-- The response-normalization step of `getSObjectSchema` (pulsar.js lines
729-738): only a string response is accepted and decoded; every non-string
response — including one that is already a structured object — raises the
unexpected-return-type error. -/
def getSObjectSchemaNormalize (parse : String → Option JVal)
    (response : JVal) : Except PErr JVal :=
  match response with
  | .jstr s =>
      match parse s with
      | some v => .ok v
      | none => .error (.parseFailure "schema")
  | _ => .error (.unexpectedType "getSObjectSchema")

/-! ## The relationship path resolver

`resolveSOQLFieldPath` (pulsar.js lines 750-802) is embedded against its
two collaborators `this.getSObjectSchema` and `this.read` — the same
boundary at which the repository's own test suite exercises it.  Each
collaborator call is recorded in a trace; the trace list is ordered by
time of the calls (the function is sequential: it `await`s each call
before making the next). -/

/-- One collaborator call made by the resolver: a schema fetch
(`this.getSObjectSchema(currentType)`) or a record read
(`this.read(refType, { Id: refId })`). -/
inductive REvent : Type
  | schemaCall : JVal → REvent
  | readCall : JVal → JVal → REvent

/-- The resolver's collaborators.  `getSchema ty` embeds `await
this.getSObjectSchema(ty)` (a rejection is `.error`); `read ty id` embeds
`await this.read(ty, { Id: id })`. -/
structure REnv : Type where
  getSchema : JVal → Except PErr JVal
  read : JVal → JVal → Except PErr JVal

/-- Embedding of `Object.values(x)` where the code applies it to
`schema.fields`: an object yields its property values, an array its
elements, `null`/`undefined` raise a TypeError, a string yields its
characters, and other primitives have no own enumerable properties. -/
def objectValues : JVal → Except PErr (List JVal)
  | .jobj fs => .ok (fs.map Prod.snd)
  | .jarr xs => .ok xs
  | .jnull => .error .typeError
  | .jundef => .error .typeError
  | .jstr s => .ok (s.toList.map fun c => .jstr (String.mk [c]))
  | _ => .ok []

/-- Embedding of `Object.values(schema.fields).find(f => f.relationshipName === field)`
(pulsar.js line 771).  The strict equality against the string `field`
holds exactly for the identical string primitive.  A `null`/`undefined`
element would raise a TypeError at the property access `f.relationshipName`. -/
def findRelationshipField (field : String) :
    List JVal → Except PErr (Option JVal)
  | [] => .ok none
  | f :: rest =>
      if f.isNullish then .error .typeError
      else
        match f.getMember "relationshipName" with
        | .jstr s =>
            if s = field then .ok (some f) else findRelationshipField field rest
        | _ => findRelationshipField field rest

/-- The target-type determination of one relationship hop (pulsar.js lines
777-790): `refType` starts as `null`; when `referenceTo` is an array it is
its sole element, or — for a polymorphic relationship — the first truthy of
`currentRecord?.[name + '__r']?.attributes?.type`,
`currentRecord?.[name]?.attributes?.type` and the fallback
`referenceTo[0]`.  The hint is not compared against the declared
`referenceTo` entries. -/
def hopRefType (record : JVal) (nameKey : String) (referenceTo : JVal) : JVal :=
  match referenceTo with
  | .jarr xs =>
      if xs.length = 1 then referenceTo.getMember "0"
      else
        jsOr (jsOr
          (((record.getOpt (nameKey ++ "__r")).getOpt "attributes").getOpt "type")
          (((record.getOpt nameKey).getOpt "attributes").getOpt "type"))
          (referenceTo.getMember "0")
  | _ => .jnull

/-- Outcome of one relationship hop: a hard error, a soft fail collapsing
the walk to `null`, or the next `currentRecord`/`currentType` pair. -/
inductive HopOut : Type
  | fail : PErr → HopOut
  | nullOut : HopOut
  | next : JVal → JVal → HopOut

/-- One relationship hop of `resolveSOQLFieldPath` (pulsar.js lines
771-798), applied after the segment's schema has been fetched: find the
field whose `relationshipName` strictly equals the segment (none ⇒ `null`),
read the foreign key `currentRecord?.[field.name]` (falsy ⇒ `null`),
determine the target type (falsy ⇒ `null`), read the target record (the
recorded `readCall`), and continue with `results?.[0]` (falsy ⇒ `null`).
The returned trace lists the collaborator calls this hop made. -/
def resolveHop (env : REnv) (schema : JVal) (field : String)
    (record : JVal) : List REvent × HopOut :=
  if schema.isNullish then ([], .fail .typeError)
  else
      match objectValues (schema.getMember "fields") with
      | .error e => ([], .fail e)
      | .ok fieldDescriptors =>
          match findRelationshipField field fieldDescriptors with
          | .error e => ([], .fail e)
          | .ok none => ([], .nullOut)
          | .ok (some relationshipField) =>
              let nameKey := toPropKey (relationshipField.getMember "name")
              let refId := record.getOpt nameKey
              if ¬ refId.truthy then ([], .nullOut)
              else
                let refType :=
                  hopRefType record nameKey (relationshipField.getMember "referenceTo")
                if ¬ refType.truthy then ([], .nullOut)
                else
                  match env.read refType refId with
                  | .error e => ([.readCall refType refId], .fail e)
                  | .ok results =>
                      let newRecord := results.getOpt "0"
                      if ¬ newRecord.truthy then
                        ([.readCall refType refId], .nullOut)
                      else
                        ([.readCall refType refId], .next newRecord refType)

/-- The `for` loop of `resolveSOQLFieldPath` (pulsar.js lines 761-801),
carrying the remaining path segments, `currentRecord` and `currentType`;
returns the trace of collaborator calls in call order together with the
settlement of the promise.  Faithful points against the source: the schema
fetch (`await this.getSObjectSchema(currentType)`, line 763) happens on
every iteration before the final-segment check; the final segment resolves
`currentRecord?.[field] ?? null` (line 767); every soft-fail inside a hop
collapses the whole walk to `null`; and when the loop exhausts all
segments (possible only with an empty segment list) the function returns
`null` (line 801). -/
def resolveGo (env : REnv) :
    List String → JVal → JVal → List REvent × Except PErr JVal
  | [], _, _ => ([], .ok .jnull)
  | field :: rest, currentRecord, currentType =>
      match env.getSchema currentType with
      | .error e => ([.schemaCall currentType], .error e)
      | .ok schema =>
          if rest.isEmpty then
            ([.schemaCall currentType],
             .ok (nullish (currentRecord.getOpt field) .jnull))
          else
            match resolveHop env schema field currentRecord with
            | (tr, .fail e) => (.schemaCall currentType :: tr, .error e)
            | (tr, .nullOut) => (.schemaCall currentType :: tr, .ok .jnull)
            | (tr, .next newRecord newType) =>
                let (tr', res) := resolveGo env rest newRecord newType
                (.schemaCall currentType :: (tr ++ tr'), res)

/-- JavaScript's `path.split('.')` on a character list: splitting an empty
string yields one empty segment, and consecutive or trailing dots yield
empty segments, exactly as `String.prototype.split`. -/
def splitDotChars : List Char → List (List Char)
  | [] => [[]]
  | c :: rest =>
      match splitDotChars rest with
      | [] => [[]]
      | g :: gs => if c = '.' then [] :: g :: gs else (c :: g) :: gs

/-- JavaScript's `path.split('.')`. -/
def jsSplitDot (s : String) : List String :=
  (splitDotChars s.toList).map fun cs => String.mk cs

/-- Embedding of `Pulsar.resolveSOQLFieldPath(record, path, sObjectType)` (pulsar.js
lines 750-802): split the path on `'.'`, drop the first segment when it
equals the base type, then walk the segments.  Returns the collaborator
call trace (ordered by time of call) and the promise settlement. -/
def resolveSOQLFieldPath (env : REnv) (record : JVal) (path : String)
    (sObjectType : String) : List REvent × Except PErr JVal :=
  let parts := jsSplitDot path
  let parts' := if parts.head? = some sObjectType then parts.tail else parts
  resolveGo env parts' record (.jstr sObjectType)

/-! ## Fixtures used by witnesses and counterexamples -/

/-- A session that has completed its handshake in an embedded context with
a versioned bridge. -/
def readySession : Session :=
  { bridge := some ⟨0, some (.jnum 13)⟩,
    pulsarObj := some ⟨⟨0, some (.jnum 13)⟩⟩,
    isInitialized := true }

/-- A host whose completion callback delivers `{type:'error', data:'boom'}`. -/
def hostBoom : JVal → Envelope := fun _ => ⟨"error", .jstr "boom"⟩

/-- A host whose completion callback delivers `{type:'error'}` (no data). -/
def hostNoData : JVal → Envelope := fun _ => ⟨"error", .jundef⟩

/-- A host whose completion callback delivers a success envelope. -/
def hostRead : JVal → Envelope := fun _ => ⟨"readResponse", .jarr [.jstr "r"]⟩

/-! ## Claim theorems -/

/-- C1, evaluation of the code at the failing input.  On a session already
in the Ready state, a second `init()` does reject with the
already-initialized error, but — because the source has no `return` after
the `reject` (pulsar.js line 19) — the body still runs: in a native
context it registers a second `WebViewJavascriptBridgeReady` listener and
arms a second 5000 ms timeout, and in an embedded context it re-adopts the
currently discoverable parent bridge, mutating the session. -/
theorem claim_C1_second_init_runs_body :
    (initSync none readySession).2.outcome = some (.error .alreadyInitialized) ∧
    (initSync none readySession).2.listenersAdded = 1 ∧
    (initSync none readySession).2.timersArmed = 1 ∧
    (initSync (some ⟨⟨1, none⟩⟩) readySession).2.outcome
      = some (.error .alreadyInitialized) ∧
    (initSync (some ⟨⟨1, none⟩⟩) readySession).2.adoptedEmbedded = true ∧
    (initSync (some ⟨⟨1, none⟩⟩) readySession).1.bridge = some ⟨1, none⟩ ∧
    readySession.bridge = some ⟨0, some (.jnum 13)⟩ :=
  ⟨rfl, rfl, rfl, rfl, rfl, rfl, rfl⟩

/-- C4: in the native handshake, if the deadline fires before the
bridge-ready notification, the handshake settles with the timeout error,
the listener and timer are disarmed, and no sequence of later occurrences
(in particular a late bridge-ready notification) changes the state: the
handshake is never resolved or re-resolved, no bridge is adopted and
`bridge.init()` is never invoked.  Conversely, if the notification arrives
first, the handshake resolves with the delivered handle, the timer is
cancelled and the listener removed, and the (cancelled) deadline is a
no-op. -/
theorem claim_C4_timeout_race :
    (nstep nativeStart .deadline).settled = some (.error .timedOut) ∧
    (nstep nativeStart .deadline).listenerActive = false ∧
    (nstep nativeStart .deadline).timerActive = false ∧
    (∀ l : List Occ, nrun (nstep nativeStart .deadline) l = nstep nativeStart .deadline) ∧
    (nstep nativeStart .deadline).session.bridge = none ∧
    (nstep nativeStart .deadline).bridgeInitCalls = 0 ∧
    (∀ b : Bridge,
      (nstep nativeStart (.ready b)).settled = some (.ok b) ∧
      (nstep nativeStart (.ready b)).timerActive = false ∧
      (nstep nativeStart (.ready b)).listenerActive = false ∧
      nstep (nstep nativeStart (.ready b)) .deadline = nstep nativeStart (.ready b)) := by
  refine ⟨rfl, rfl, rfl, ?_, rfl, rfl, ?_⟩
  · intro l
    exact nrun_inert _ rfl rfl l
  · intro b
    refine ⟨rfl, rfl, rfl, ?_⟩
    exact nstep_inert _ rfl rfl _

/-- C6: for every transport send through a connected session, a completion
callback whose envelope type is `'error'` rejects with the envelope's data
as the carried message — concretely, with the data itself when it is a
nonempty string, and with the fixed generic message when the data is
absent (`undefined`) or the empty string — while a callback with any other
envelope type resolves with the envelope's data. -/
theorem claim_C6_error_envelope_discrimination :
    (∀ (s : Session) (host : JVal → Envelope) (req : JVal),
       s.bridge.isSome → (host req).type = "error" →
       sendCall s host req =
         (true, .error (.jsapi (jsOr (host req).data (jstr genericJsapiMessage))))) ∧
    (∀ (s : Session) (host : JVal → Envelope) (req : JVal) (m : String),
       s.bridge.isSome → (host req).type = "error" →
       (host req).data = .jstr m → m ≠ "" →
       sendCall s host req = (true, .error (.jsapi (.jstr m)))) ∧
    (∀ (s : Session) (host : JVal → Envelope) (req : JVal),
       s.bridge.isSome → (host req).type = "error" →
       ((host req).data = .jundef ∨ (host req).data = .jstr "") →
       sendCall s host req = (true, .error (.jsapi (.jstr genericJsapiMessage)))) ∧
    (∀ (s : Session) (host : JVal → Envelope) (req : JVal),
       s.bridge.isSome → (host req).type ≠ "error" →
       sendCall s host req = (true, .ok (host req).data)) := by
  refine ⟨?_, ?_, ?_, ?_⟩
  · intro s host req hb ht
    rcases Option.isSome_iff_exists.mp hb with ⟨b, hb'⟩
    simp [sendCall, hb', ht]
  · intro s host req m hb ht hd hm
    rcases Option.isSome_iff_exists.mp hb with ⟨b, hb'⟩
    simp [sendCall, hb', ht, hd, jsOr, truthy, hm]
  · intro s host req hb ht hd
    rcases Option.isSome_iff_exists.mp hb with ⟨b, hb'⟩
    rcases hd with hd | hd <;>
      simp [sendCall, hb', ht, hd, jsOr, truthy]
  · intro s host req hb ht
    rcases Option.isSome_iff_exists.mp hb with ⟨b, hb'⟩
    simp [sendCall, hb', ht]

/-- Witness for C6: concrete hosts delivering `{type:'error', data:'boom'}`,
`{type:'error'}` and a success envelope, against the ready session. -/
theorem claim_C6_error_envelope_discrimination_witness :
    sendCall readySession hostBoom (.jobj []) =
      (true, .error (.jsapi (.jstr "boom"))) ∧
    sendCall readySession hostNoData (.jobj []) =
      (true, .error (.jsapi (.jstr genericJsapiMessage))) ∧
    sendCall readySession hostRead (.jobj []) = (true, .ok (.jarr [.jstr "r"])) :=
  ⟨claim_C6_error_envelope_discrimination.2.1 readySession hostBoom (.jobj [])
      "boom" rfl rfl rfl (by decide),
   claim_C6_error_envelope_discrimination.2.2.1 readySession hostNoData (.jobj [])
      rfl rfl (Or.inl rfl),
   claim_C6_error_envelope_discrimination.2.2.2 readySession hostRead (.jobj [])
      rfl (by decide)⟩

/-- Invariant characterizing the states a native handshake can reach from
`nativeStart`: either it is still pending (listener registered, timer
armed, promise unsettled, no bridge adopted), or it has settled and both
the listener and the timer are disarmed — with the timeout error and no
bridge on the deadline branch, or with the delivered handle adopted as the
session bridge on the notification branch. -/
def handshakeInv (st : NState) : Prop :=
  (st.listenerActive = true ∧ st.timerActive = true ∧ st.settled = none ∧
   st.session.bridge = none) ∨
  (st.listenerActive = false ∧ st.timerActive = false ∧
   ((st.settled = some (.error .timedOut) ∧ st.session.bridge = none) ∨
    (∃ b, st.settled = some (.ok b) ∧ st.session.bridge = some b)))

theorem handshakeInv_start : handshakeInv nativeStart :=
  Or.inl ⟨rfl, rfl, rfl, rfl⟩

theorem handshakeInv_step (st : NState) (h : handshakeInv st) (o : Occ) :
    handshakeInv (nstep st o) := by
  rcases h with ⟨hl, ht, hs, hb⟩ | ⟨hl, ht, hrest⟩
  · cases o with
    | ready b =>
        right
        refine ⟨by simp [nstep, hl], by simp [nstep, hl], Or.inr ⟨b, ?_, ?_⟩⟩ <;>
          simp [nstep, hl]
    | deadline =>
        right
        refine ⟨by simp [nstep, ht], by simp [nstep, ht], Or.inl ⟨?_, ?_⟩⟩ <;>
          simp [nstep, ht, hb]
  · rw [nstep_inert st hl ht o]
    exact Or.inr ⟨hl, ht, hrest⟩

theorem handshakeInv_run (occs : List Occ) :
    handshakeInv (nrun nativeStart occs) := by
  suffices h : ∀ st, handshakeInv st → handshakeInv (nrun st occs) from
    h nativeStart handshakeInv_start
  induction occs with
  | nil => intro st h; exact h
  | cons o l ih =>
      intro st h
      rw [nrun_cons]
      exact ih _ (handshakeInv_step st h o)

/-- C7: every call through the transport before the handshake has
resolved fails immediately with the not-initialized error and never
invokes the host bridge's send primitive: this holds for a fresh
(uninitialized) session, and for the session of every native-handshake
state reachable from the start of the handshake whose promise has not
resolved with a bridge (still pending, or failed by timeout). -/
theorem claim_C7_send_requires_ready :
    (∀ (host : JVal → Envelope) (req : JVal),
       sendCall Session.fresh host req = (false, .error .notInitialized)) ∧
    (∀ (occs : List Occ) (host : JVal → Envelope) (req : JVal),
       (∀ b, (nrun nativeStart occs).settled ≠ some (.ok b)) →
       (nrun nativeStart occs).session.bridge = none ∧
       sendCall (nrun nativeStart occs).session host req =
         (false, .error .notInitialized)) := by
  constructor
  · intro host req
    rfl
  · intro occs host req hns
    have hinv := handshakeInv_run occs
    have hb : (nrun nativeStart occs).session.bridge = none := by
      rcases hinv with ⟨_, _, _, hb⟩ | ⟨_, _, ⟨_, hb⟩ | ⟨b, hsb, _⟩⟩
      · exact hb
      · exact hb
      · exact absurd hsb (hns b)
    exact ⟨hb, by simp [sendCall, hb]⟩

/-- Witness for C7: the deadline has fired (no notification arrived), so
the handshake failed by timeout; a transport call on the resulting session
fails without touching the host. -/
theorem claim_C7_send_requires_ready_witness :
    (nrun nativeStart [.deadline]).session.bridge = none ∧
    sendCall (nrun nativeStart [.deadline]).session hostRead (.jobj []) =
      (false, .error .notInitialized) :=
  claim_C7_send_requires_ready.2 [.deadline] hostRead (.jobj [])
    (fun b h => by simp [nrun, nstep, nativeStart] at h)

/-- C3, counterexample to the claim as stated: `getSObjectSchema` does not
return an already-structured response unchanged — a response that is
already an object of the expected shape is rejected with the
unexpected-return-type error (pulsar.js line 738; its own test asserts
this rejection). -/
theorem claim_C3_counterexample :
    getSObjectSchemaNormalize (fun _ => none) (.jobj [("fields", .jarr [])])
        = .error (.unexpectedType "getSObjectSchema") ∧
    getSObjectSchemaNormalize (fun _ => none) (.jobj [("fields", .jarr [])])
        ≠ .ok (.jobj [("fields", .jarr [])]) :=
  ⟨rfl, fun h => nomatch h⟩

/-- C3, amended: for `getLayout` (expected shape: non-null object, which
in JavaScript includes arrays), `getLayoutSections` and `getLayoutFields`
(expected shape: array), a response already of the expected structured
shape is returned unchanged, and decoding a serialized-string payload
yields exactly the value that passing the already-structured equivalent
directly yields; an undecodable string fails with the parse-failure error.
`getSObjectSchema`, by contrast, accepts only serialized strings: it
decodes them identically, but every non-string response — including an
already-structured object — fails with the unexpected-return-type
error. -/
theorem claim_C3_normalizer_amended :
    (∀ (parse : String → Option JVal) (v : JVal), isObjectShape v = true →
       getLayoutNormalize parse v = .ok v) ∧
    (∀ (parse : String → Option JVal) (v : JVal), isArrayShape v = true →
       getLayoutSectionsNormalize parse v = .ok v ∧
       getLayoutFieldsNormalize parse v = .ok v) ∧
    (∀ (parse : String → Option JVal) (s : String) (v : JVal), parse s = some v →
       getLayoutNormalize parse (.jstr s) = .ok v ∧
       getLayoutSectionsNormalize parse (.jstr s) = .ok v ∧
       getLayoutFieldsNormalize parse (.jstr s) = .ok v ∧
       getSObjectSchemaNormalize parse (.jstr s) = .ok v) ∧
    (∀ (parse : String → Option JVal) (s : String) (v : JVal), parse s = some v →
       isObjectShape v = true →
       getLayoutNormalize parse (.jstr s) = getLayoutNormalize parse v) ∧
    (∀ (parse : String → Option JVal) (s : String) (v : JVal), parse s = some v →
       isArrayShape v = true →
       getLayoutSectionsNormalize parse (.jstr s) = getLayoutSectionsNormalize parse v ∧
       getLayoutFieldsNormalize parse (.jstr s) = getLayoutFieldsNormalize parse v) ∧
    (∀ (parse : String → Option JVal) (s : String), parse s = none →
       getLayoutNormalize parse (.jstr s) = .error (.parseFailure "layout") ∧
       getLayoutSectionsNormalize parse (.jstr s) = .error (.parseFailure "layout sections") ∧
       getLayoutFieldsNormalize parse (.jstr s) = .error (.parseFailure "layout fields") ∧
       getSObjectSchemaNormalize parse (.jstr s) = .error (.parseFailure "schema")) ∧
    (∀ (parse : String → Option JVal) (v : JVal), (∀ s, v ≠ .jstr s) →
       getSObjectSchemaNormalize parse v = .error (.unexpectedType "getSObjectSchema")) := by
  refine ⟨?_, ?_, ?_, ?_, ?_, ?_, ?_⟩
  · intro parse v hv
    cases v <;> simp_all [getLayoutNormalize, isObjectShape]
  · intro parse v hv
    cases v <;> simp_all [getLayoutSectionsNormalize, getLayoutFieldsNormalize, isArrayShape]
  · intro parse s v hp
    simp [getLayoutNormalize, getLayoutSectionsNormalize, getLayoutFieldsNormalize,
      getSObjectSchemaNormalize, hp]
  · intro parse s v hp hv
    have h1 : getLayoutNormalize parse (.jstr s) = .ok v := by
      simp [getLayoutNormalize, hp]
    have h2 : getLayoutNormalize parse v = .ok v := by
      cases v <;> simp_all [getLayoutNormalize, isObjectShape]
    rw [h1, h2]
  · intro parse s v hp hv
    have h1 : getLayoutSectionsNormalize parse (.jstr s) = .ok v := by
      simp [getLayoutSectionsNormalize, hp]
    have h2 : getLayoutFieldsNormalize parse (.jstr s) = .ok v := by
      simp [getLayoutFieldsNormalize, hp]
    have h3 : getLayoutSectionsNormalize parse v = .ok v := by
      cases v <;> simp_all [getLayoutSectionsNormalize, isArrayShape]
    have h4 : getLayoutFieldsNormalize parse v = .ok v := by
      cases v <;> simp_all [getLayoutFieldsNormalize, isArrayShape]
    exact ⟨by rw [h1, h3], by rw [h2, h4]⟩
  · intro parse s hp
    simp [getLayoutNormalize, getLayoutSectionsNormalize, getLayoutFieldsNormalize,
      getSObjectSchemaNormalize, hp]
  · intro parse v hv
    cases v <;> first | rfl | exact absurd rfl (hv _)

/-- A concrete stand-in for `JSON.parse` used by witnesses: decodes the
single payload `"[1]"` and fails on everything else. -/
def parseFix : String → Option JVal :=
  fun s => if s = "[1]" then some (.jarr [.jnum 1]) else none

/-- Witness for the amended C3: a structured object through `getLayout`, a
structured array through the section/field normalizers, the decoded string
`"[1]"` through all four, the deep-equality of decoded string and
structured equivalent, an undecodable string, and a structured object
rejected by `getSObjectSchema`. -/
theorem claim_C3_normalizer_amended_witness :
    getLayoutNormalize parseFix (.jobj [("a", .jnum 1)]) = .ok (.jobj [("a", .jnum 1)]) ∧
    getLayoutSectionsNormalize parseFix (.jarr [.jnum 1]) = .ok (.jarr [.jnum 1]) ∧
    getLayoutFieldsNormalize parseFix (.jarr [.jnum 1]) = .ok (.jarr [.jnum 1]) ∧
    getSObjectSchemaNormalize parseFix (.jstr "[1]") = .ok (.jarr [.jnum 1]) ∧
    getLayoutNormalize parseFix (.jstr "[1]") = getLayoutNormalize parseFix (.jarr [.jnum 1]) ∧
    getLayoutSectionsNormalize parseFix (.jstr "[1]")
      = getLayoutSectionsNormalize parseFix (.jarr [.jnum 1]) ∧
    getLayoutNormalize parseFix (.jstr "bad") = .error (.parseFailure "layout") ∧
    getSObjectSchemaNormalize parseFix (.jstr "bad") = .error (.parseFailure "schema") ∧
    getSObjectSchemaNormalize parseFix (.jobj [("fields", .jarr [])])
      = .error (.unexpectedType "getSObjectSchema") :=
  ⟨claim_C3_normalizer_amended.1 parseFix (.jobj [("a", .jnum 1)]) rfl,
   (claim_C3_normalizer_amended.2.1 parseFix (.jarr [.jnum 1]) rfl).1,
   (claim_C3_normalizer_amended.2.1 parseFix (.jarr [.jnum 1]) rfl).2,
   (claim_C3_normalizer_amended.2.2.1 parseFix "[1]" (.jarr [.jnum 1]) rfl).2.2.2,
   claim_C3_normalizer_amended.2.2.2.1 parseFix "[1]" (.jarr [.jnum 1]) rfl rfl,
   (claim_C3_normalizer_amended.2.2.2.2.1 parseFix "[1]" (.jarr [.jnum 1]) rfl rfl).1,
   (claim_C3_normalizer_amended.2.2.2.2.2.1 parseFix "bad" rfl).1,
   (claim_C3_normalizer_amended.2.2.2.2.2.1 parseFix "bad" rfl).2.2.2,
   claim_C3_normalizer_amended.2.2.2.2.2.2 parseFix (.jobj [("fields", .jarr [])])
     (fun _ h => nomatch h)⟩

/-! ## Resolver fixtures used by witnesses and counterexamples -/

/-- An environment whose schema service returns an empty schema object and
whose record store returns no records. -/
def trivEnv : REnv :=
  { getSchema := fun _ => .ok (.jobj [])
    read := fun _ _ => .ok (.jarr []) }

/-- Schema for `Contact` exposing the field `OwnerId` with
`relationshipName "Owner"` and `referenceTo ["User"]`. -/
def contactSchema : JVal :=
  .jobj [("fields", .jobj [("OwnerId", .jobj
    [("name", .jstr "OwnerId"), ("relationshipName", .jstr "Owner"),
     ("referenceTo", .jarr [.jstr "User"])])])]

/-- An environment exposing `contactSchema` for `Contact` and a record
store in which reading `User` by id `005X` returns
`[{Id:"005X", Name:"Carol"}]`. -/
def envOwner : REnv :=
  { getSchema := fun ty =>
      match ty with
      | .jstr "Contact" => .ok contactSchema
      | _ => .ok (.jobj [])
    read := fun t i =>
      match t, i with
      | .jstr "User", .jstr "005X" =>
          .ok (.jarr [.jobj [("Id", .jstr "005X"), ("Name", .jstr "Carol")]])
      | _, _ => .ok (.jarr []) }

/-- An environment exposing `contactSchema` for every type, over an empty
record store. -/
def envNoRecords : REnv :=
  { getSchema := fun _ => .ok contactSchema
    read := fun _ _ => .ok (.jarr []) }

/-- An environment whose schema service rejects every request. -/
def envSchemaDown : REnv :=
  { getSchema := fun _ => .error (.jsapi (.jstr "schema service down"))
    read := fun _ _ => .ok (.jarr []) }

/-- Schema for `Task` exposing the polymorphic field `WhoId` with
`relationshipName "Who"` and `referenceTo ["Contact","Lead"]`. -/
def taskSchema : JVal :=
  .jobj [("fields", .jobj [("WhoId", .jobj
    [("name", .jstr "WhoId"), ("relationshipName", .jstr "Who"),
     ("referenceTo", .jarr [.jstr "Contact", .jstr "Lead"])])])]

/-- An environment exposing `taskSchema` for `Task`, whose record store
holds a record of the type `UnknownType` — a type not declared in the
polymorphic field's `referenceTo` list — under id `999XYZ`. -/
def envPoly : REnv :=
  { getSchema := fun ty =>
      match ty with
      | .jstr "Task" => .ok taskSchema
      | _ => .ok (.jobj [])
    read := fun t i =>
      match t, i with
      | .jstr "UnknownType", .jstr "999XYZ" =>
          .ok (.jarr [.jobj [("Id", .jstr "999XYZ"), ("Name", .jstr "Impostor")]])
      | _, _ => .ok (.jarr []) }

/-- A `Task` record whose expanded relationship object carries the type
hint `"UnknownType"`, which `taskSchema` does not declare in
`referenceTo`. -/
def polyRecord : JVal :=
  .jobj [("WhoId", .jstr "999XYZ"),
         ("WhoId__r", .jobj [("attributes", .jobj [("type", .jstr "UnknownType")])])]

/-- C9: the resolver splits the path on `'.'` and drops the first segment
exactly when it equals the base entity type; an empty remaining segment
list resolves to `null`; a final segment resolves to
`currentRecord?.[segment] ?? null`; and on the claim's three concrete
examples (given that the schema collaborator answers), `{Name:"Acme"}` /
`"Name"` resolves `"Acme"`, `{}` / `"Name"` resolves `null`, and a path
equal to the base type resolves `null`. -/
theorem claim_C9_split_strip_and_leaf :
    (∀ (env : REnv) (record : JVal) (path ty : String),
       resolveSOQLFieldPath env record path ty =
         resolveGo env
           (if (jsSplitDot path).head? = some ty then (jsSplitDot path).tail
            else jsSplitDot path) record (.jstr ty)) ∧
    (∀ (env : REnv) (record ty : JVal), resolveGo env [] record ty = ([], .ok .jnull)) ∧
    (∀ (env : REnv) (record ty : JVal) (f : String) (sch : JVal),
       env.getSchema ty = .ok sch →
       resolveGo env [f] record ty =
         ([.schemaCall ty], .ok (nullish (record.getOpt f) .jnull))) ∧
    (∀ (env : REnv) (sch : JVal), env.getSchema (.jstr "Account") = .ok sch →
       (resolveSOQLFieldPath env (.jobj [("Name", .jstr "Acme")]) "Name" "Account").2
         = .ok (.jstr "Acme")) ∧
    (∀ (env : REnv) (sch : JVal), env.getSchema (.jstr "Account") = .ok sch →
       (resolveSOQLFieldPath env (.jobj []) "Name" "Account").2 = .ok .jnull) ∧
    (∀ (env : REnv) (record : JVal),
       resolveSOQLFieldPath env record "Account" "Account" = ([], .ok .jnull)) := by
  refine ⟨fun env record path ty => rfl, fun env record ty => rfl, ?_, ?_, ?_,
    fun env record => rfl⟩
  · intro env record ty f sch h
    simp [resolveGo, h]
  · intro env sch h
    show (resolveGo env ["Name"] (.jobj [("Name", .jstr "Acme")]) (.jstr "Account")).2
      = .ok (.jstr "Acme")
    simp [resolveGo, h]
    rfl
  · intro env sch h
    show (resolveGo env ["Name"] (.jobj []) (.jstr "Account")).2 = .ok .jnull
    simp [resolveGo, h]
    rfl

/-- Witness for C9: the final-segment rule and the three concrete examples
under the trivial environment, whose schema service always answers. -/
theorem claim_C9_split_strip_and_leaf_witness :
    resolveGo trivEnv ["Name"] (.jobj [("Name", .jstr "Acme")]) (.jstr "Account") =
      ([.schemaCall (.jstr "Account")], .ok (.jstr "Acme")) ∧
    (resolveSOQLFieldPath trivEnv (.jobj [("Name", .jstr "Acme")]) "Name" "Account").2
      = .ok (.jstr "Acme") ∧
    (resolveSOQLFieldPath trivEnv (.jobj []) "Name" "Account").2 = .ok .jnull ∧
    resolveSOQLFieldPath trivEnv (.jobj [("Name", .jstr "X")]) "Account" "Account"
      = ([], .ok .jnull) :=
  ⟨claim_C9_split_strip_and_leaf.2.2.1 trivEnv (.jobj [("Name", .jstr "Acme")])
      (.jstr "Account") "Name" (.jobj []) rfl,
   claim_C9_split_strip_and_leaf.2.2.2.1 trivEnv (.jobj []) rfl,
   claim_C9_split_strip_and_leaf.2.2.2.2.1 trivEnv (.jobj []) rfl,
   claim_C9_split_strip_and_leaf.2.2.2.2.2 trivEnv (.jobj [("Name", .jstr "X")])⟩

/-- C5: the resolver converts every missing-data condition met mid-walk
into a successful `null` resolution rather than an error: a hop whose
outcome is the soft-fail collapses the entire walk to `.ok null`; a hop
finding no schema field whose `relationshipName` equals the segment
soft-fails; a hop whose foreign-key value on the current record is
absent/falsy soft-fails; and a hop whose record read returns no record
soft-fails. -/
theorem claim_C5_soft_fail_to_null :
    (∀ (env : REnv) (f : String) (rest : List String) (record ty sch : JVal),
       env.getSchema ty = .ok sch → rest ≠ [] →
       (resolveHop env sch f record).2 = .nullOut →
       (resolveGo env (f :: rest) record ty).2 = .ok .jnull) ∧
    (∀ (env : REnv) (sch : JVal) (f : String) (record : JVal) (descs : List JVal),
       objectValues (sch.getMember "fields") = .ok descs →
       findRelationshipField f descs = .ok none →
       resolveHop env sch f record = ([], .nullOut)) ∧
    (∀ (env : REnv) (sch : JVal) (f : String) (record : JVal) (descs : List JVal)
       (rf : JVal),
       objectValues (sch.getMember "fields") = .ok descs →
       findRelationshipField f descs = .ok (some rf) →
       (record.getOpt (toPropKey (rf.getMember "name"))).truthy = false →
       resolveHop env sch f record = ([], .nullOut)) ∧
    (∀ (env : REnv) (sch : JVal) (f : String) (record : JVal) (descs : List JVal)
       (rf : JVal),
       objectValues (sch.getMember "fields") = .ok descs →
       findRelationshipField f descs = .ok (some rf) →
       (record.getOpt (toPropKey (rf.getMember "name"))).truthy = true →
       (hopRefType record (toPropKey (rf.getMember "name"))
          (rf.getMember "referenceTo")).truthy = true →
       env.read
           (hopRefType record (toPropKey (rf.getMember "name"))
             (rf.getMember "referenceTo"))
           (record.getOpt (toPropKey (rf.getMember "name"))) = .ok (.jarr []) →
       resolveHop env sch f record =
         ([.readCall
             (hopRefType record (toPropKey (rf.getMember "name"))
               (rf.getMember "referenceTo"))
             (record.getOpt (toPropKey (rf.getMember "name")))], .nullOut)) := by
  have hnn : ∀ sch : JVal, ∀ descs : List JVal,
      objectValues (sch.getMember "fields") = .ok descs → sch.isNullish = false := by
    intro sch descs h
    cases sch <;> first | rfl | exact nomatch h
  refine ⟨?_, ?_, ?_, ?_⟩
  · intro env f rest record ty sch h hrest hhop
    have hre : rest.isEmpty = false := by
      cases rest with
      | nil => exact absurd rfl hrest
      | cons a l => rfl
    rcases hh : resolveHop env sch f record with ⟨tr, ho⟩
    rw [hh] at hhop
    simp at hhop
    subst hhop
    simp [resolveGo, h, hre, hh]
  · intro env sch f record descs h1 h2
    simp [resolveHop, hnn sch descs h1, h1, h2]
  · intro env sch f record descs rf h1 h2 h3
    simp [resolveHop, hnn sch descs h1, h1, h2, h3]
  · intro env sch f record descs rf h1 h2 h3 h4 h5
    simp [resolveHop, hnn sch descs h1, h1, h2, h3, h4, h5]
    rfl

/-- Witness for C5: under `envNoRecords` (every type answers with
`contactSchema`, the store is empty), the walk `Manager.Name` finds no
relationship field and soft-fails, the walk `Owner.Name` from an empty
record finds no foreign key and soft-fails, the walk `Owner.Name` from a
record with a foreign key reads no record and soft-fails — each collapsing
the full resolution to `null`. -/
theorem claim_C5_soft_fail_to_null_witness :
    resolveHop envNoRecords contactSchema "Manager" (.jobj []) = ([], .nullOut) ∧
    resolveHop envNoRecords contactSchema "Owner" (.jobj []) = ([], .nullOut) ∧
    resolveHop envNoRecords contactSchema "Owner" (.jobj [("OwnerId", .jstr "005X")])
      = ([.readCall (.jstr "User") (.jstr "005X")], .nullOut) ∧
    (resolveGo envNoRecords ["Owner", "Name"] (.jobj [("OwnerId", .jstr "005X")])
      (.jstr "Contact")).2 = .ok .jnull :=
  ⟨claim_C5_soft_fail_to_null.2.1 envNoRecords contactSchema "Manager" (.jobj [])
      _ rfl rfl,
   claim_C5_soft_fail_to_null.2.2.1 envNoRecords contactSchema "Owner" (.jobj [])
      _ _ rfl rfl rfl,
   claim_C5_soft_fail_to_null.2.2.2 envNoRecords contactSchema "Owner"
      (.jobj [("OwnerId", .jstr "005X")]) _ _ rfl rfl rfl rfl rfl,
   claim_C5_soft_fail_to_null.1 envNoRecords "Owner" ["Name"]
      (.jobj [("OwnerId", .jstr "005X")]) (.jstr "Contact") contactSchema rfl
      (by simp)
      (by rw [claim_C5_soft_fail_to_null.2.2.2 envNoRecords contactSchema "Owner"
            (.jobj [("OwnerId", .jstr "005X")]) _ _ rfl rfl rfl rfl rfl])⟩

/-- Test selecting the schema-fetch events of a trace. -/
def isSchemaCall : REvent → Bool
  | .schemaCall _ => true
  | .readCall _ _ => false

/-- Number of schema-collaborator calls recorded in a trace. -/
def schemaCallCount (tr : List REvent) : Nat := (tr.filter isSchemaCall).length

theorem schemaCallCount_append (a b : List REvent) :
    schemaCallCount (a ++ b) = schemaCallCount a + schemaCallCount b := by
  simp [schemaCallCount, List.filter_append]

/-- Unfolding equation for one loop iteration of the resolver. -/
theorem resolveGo_cons (env : REnv) (f : String) (rest : List String)
    (record ty : JVal) :
    resolveGo env (f :: rest) record ty =
      match env.getSchema ty with
      | .error e => ([.schemaCall ty], .error e)
      | .ok schema =>
          if rest.isEmpty then
            ([.schemaCall ty], .ok (nullish (record.getOpt f) .jnull))
          else
            match resolveHop env schema f record with
            | (tr, .fail e) => (.schemaCall ty :: tr, .error e)
            | (tr, .nullOut) => (.schemaCall ty :: tr, .ok .jnull)
            | (tr, .next newRecord newType) =>
                (.schemaCall ty :: (tr ++ (resolveGo env rest newRecord newType).1),
                 (resolveGo env rest newRecord newType).2) := by
  rfl

/-- Unfolding of one iteration whose schema fetch fails. -/
theorem resolveGo_cons_err (env : REnv) (f : String) (rest : List String)
    (record ty : JVal) (e : PErr) (h : env.getSchema ty = .error e) :
    resolveGo env (f :: rest) record ty = ([.schemaCall ty], .error e) := by
  rw [resolveGo_cons, h]

/-- Unfolding of the final iteration (single remaining segment). -/
theorem resolveGo_cons_leaf (env : REnv) (f : String) (record ty sch : JVal)
    (h : env.getSchema ty = .ok sch) :
    resolveGo env [f] record ty =
      ([.schemaCall ty], .ok (nullish (record.getOpt f) .jnull)) := by
  rw [resolveGo_cons, h]
  rfl

/-- Unfolding of a non-final iteration through its hop outcome. -/
theorem resolveGo_cons_hop (env : REnv) (f : String) (rest : List String)
    (record ty sch : JVal) (tr : List REvent) (ho : HopOut)
    (h : env.getSchema ty = .ok sch) (hre : rest.isEmpty = false)
    (hh : resolveHop env sch f record = (tr, ho)) :
    resolveGo env (f :: rest) record ty =
      match ho with
      | .fail e => (.schemaCall ty :: tr, .error e)
      | .nullOut => (.schemaCall ty :: tr, .ok .jnull)
      | .next nr nt =>
          (.schemaCall ty :: (tr ++ (resolveGo env rest nr nt).1),
           (resolveGo env rest nr nt).2) := by
  rw [resolveGo_cons, h]
  simp only [hre, Bool.false_eq_true, if_false, hh]
  cases ho <;> rfl

/-- A hop makes no schema call of its own: its trace is empty or a single
record read. -/
theorem resolveHop_trace (env : REnv) (sch : JVal) (f : String) (record : JVal) :
    (resolveHop env sch f record).1 = [] ∨
    ∃ t i, (resolveHop env sch f record).1 = [REvent.readCall t i] := by
  unfold resolveHop
  repeat' first
    | split
    | (dsimp only [])
  all_goals first
    | (left; rfl)
    | (right; exact ⟨_, _, rfl⟩)

theorem resolveHop_schemaCallCount (env : REnv) (sch : JVal) (f : String)
    (record : JVal) : schemaCallCount (resolveHop env sch f record).1 = 0 := by
  rcases resolveHop_trace env sch f record with h | ⟨t, i, h⟩ <;>
    simp [h, schemaCallCount, isSchemaCall]

/-- Exhaustive characterization of a hop's result: it fails or soft-fails
before any read with an empty trace, or it performs exactly one read — and
when it continues the walk, the type it hands over is the type it read. -/
theorem resolveHop_cases (env : REnv) (sch : JVal) (f : String) (record : JVal) :
    (∃ e, resolveHop env sch f record = ([], .fail e)) ∨
    (resolveHop env sch f record = ([], .nullOut)) ∨
    (∃ t i e, resolveHop env sch f record = ([.readCall t i], .fail e)) ∨
    (∃ t i, resolveHop env sch f record = ([.readCall t i], .nullOut)) ∨
    (∃ t i nr, resolveHop env sch f record = ([.readCall t i], .next nr t)) := by
  unfold resolveHop
  repeat' first
    | split
    | (dsimp only [])
  all_goals first
    | (exact Or.inl ⟨_, rfl⟩)
    | (exact Or.inr (Or.inl rfl))
    | (exact Or.inr (Or.inr (Or.inl ⟨_, _, _, rfl⟩)))
    | (exact Or.inr (Or.inr (Or.inr (Or.inl ⟨_, _, rfl⟩))))
    | (exact Or.inr (Or.inr (Or.inr (Or.inr ⟨_, _, _, rfl⟩))))

/-- Unfolding of a non-final iteration whose hop continues the walk. -/
theorem resolveGo_cons_hop_next (env : REnv) (f : String) (rest : List String)
    (record ty sch : JVal) (tr : List REvent) (nr nt : JVal)
    (h : env.getSchema ty = .ok sch) (hre : rest.isEmpty = false)
    (hh : resolveHop env sch f record = (tr, .next nr nt)) :
    resolveGo env (f :: rest) record ty =
      (.schemaCall ty :: (tr ++ (resolveGo env rest nr nt).1),
       (resolveGo env rest nr nt).2) := by
  rw [resolveGo_cons, h]
  simp only [hre, Bool.false_eq_true, if_false, hh]

/-- C10: the resolver fetches a schema for the current type on every
segment, the final one included — a walk that reaches its leaf with a
non-null value performs exactly one schema call per path segment, every
nonempty walk's first collaborator call is the schema fetch for the
current type, and on a single-segment path a schema-collaborator failure
rejects the whole resolution instead of returning the locally available
field value (exemplified on the path `"Name"`). -/
theorem claim_C10_schema_fetch_every_segment :
    (∀ (env : REnv) (parts : List String) (record ty v : JVal),
       (resolveGo env parts record ty).2 = .ok v → v ≠ .jnull →
       schemaCallCount (resolveGo env parts record ty).1 = parts.length) ∧
    (∀ (env : REnv) (f : String) (rest : List String) (record ty : JVal),
       ∃ tl, (resolveGo env (f :: rest) record ty).1 = .schemaCall ty :: tl) ∧
    (∀ (env : REnv) (f : String) (record ty : JVal) (e : PErr),
       env.getSchema ty = .error e →
       resolveGo env [f] record ty = ([.schemaCall ty], .error e)) ∧
    (∀ (env : REnv) (record : JVal) (e : PErr),
       env.getSchema (.jstr "Account") = .error e →
       resolveSOQLFieldPath env record "Name" "Account"
         = ([.schemaCall (.jstr "Account")], .error e)) := by
  refine ⟨?_, ?_, ?_, ?_⟩
  · intro env parts
    induction parts with
    | nil =>
        intro record ty v h hv
        simp [resolveGo] at h
        exact absurd h.symm hv
    | cons f rest ih =>
        intro record ty v h hv
        rcases hg : env.getSchema ty with e | sch
        · rw [resolveGo_cons_err env f rest record ty e hg] at h
          exact nomatch h
        · cases hre : rest.isEmpty with
          | true =>
              have hnil : rest = [] := List.isEmpty_iff.mp hre
              subst hnil
              rw [resolveGo_cons_leaf env f record ty sch hg]
              simp [schemaCallCount, isSchemaCall]
          | false =>
              rcases hh : resolveHop env sch f record with ⟨tr, ho⟩
              cases ho with
              | fail e =>
                  rw [resolveGo_cons_hop env f rest record ty sch tr _ hg hre hh] at h
                  exact nomatch h
              | nullOut =>
                  rw [resolveGo_cons_hop env f rest record ty sch tr _ hg hre hh] at h
                  simp at h
                  exact absurd h.symm hv
              | next nr nt =>
                  rw [resolveGo_cons_hop env f rest record ty sch tr _ hg hre hh] at h ⊢
                  simp only [] at h ⊢
                  have hcount := ih nr nt v h hv
                  have htr : schemaCallCount tr = 0 := by
                    have hht := resolveHop_schemaCallCount env sch f record
                    rw [hh] at hht
                    exact hht
                  have hsplit : schemaCallCount
                        (REvent.schemaCall ty :: (tr ++ (resolveGo env rest nr nt).1))
                      = 1 + (schemaCallCount tr
                          + schemaCallCount (resolveGo env rest nr nt).1) := by
                    simp [schemaCallCount, isSchemaCall, List.filter_append]
                    omega
                  simp only [List.length_cons]
                  omega
  · intro env f rest record ty
    rcases hg : env.getSchema ty with e | sch
    · exact ⟨[], by rw [resolveGo_cons_err env f rest record ty e hg]⟩
    · cases hre : rest.isEmpty with
      | true =>
          have hnil : rest = [] := List.isEmpty_iff.mp hre
          subst hnil
          exact ⟨[], by rw [resolveGo_cons_leaf env f record ty sch hg]⟩
      | false =>
          rcases hh : resolveHop env sch f record with ⟨tr, ho⟩
          cases ho with
          | fail e =>
              exact ⟨tr, by
                rw [resolveGo_cons_hop env f rest record ty sch tr _ hg hre hh]⟩
          | nullOut =>
              exact ⟨tr, by
                rw [resolveGo_cons_hop env f rest record ty sch tr _ hg hre hh]⟩
          | next nr nt =>
              exact ⟨tr ++ (resolveGo env rest nr nt).1, by
                rw [resolveGo_cons_hop env f rest record ty sch tr _ hg hre hh]⟩
  · intro env f record ty e hg
    exact resolveGo_cons_err env f [] record ty e hg
  · intro env record e hg
    show resolveGo env ["Name"] record (.jstr "Account") = _
    exact resolveGo_cons_err env "Name" [] record (.jstr "Account") e hg

/-- Witness for C10: the two-segment walk `Owner.Name` resolving `"Carol"`
makes exactly two schema calls, and with the schema service down a
single-segment walk rejects even though the record holds the field
locally. -/
theorem claim_C10_schema_fetch_every_segment_witness :
    schemaCallCount (resolveGo envOwner ["Owner", "Name"]
      (.jobj [("OwnerId", .jstr "005X")]) (.jstr "Contact")).1 = 2 ∧
    resolveGo envSchemaDown ["Name"] (.jobj [("Name", .jstr "Acme")]) (.jstr "Account")
      = ([.schemaCall (.jstr "Account")], .error (.jsapi (.jstr "schema service down"))) ∧
    resolveSOQLFieldPath envSchemaDown (.jobj [("Name", .jstr "Acme")]) "Name" "Account"
      = ([.schemaCall (.jstr "Account")], .error (.jsapi (.jstr "schema service down"))) :=
  ⟨claim_C10_schema_fetch_every_segment.1 envOwner ["Owner", "Name"]
      (.jobj [("OwnerId", .jstr "005X")]) (.jstr "Contact") (.jstr "Carol") rfl
      (fun h => nomatch h),
   claim_C10_schema_fetch_every_segment.2.2.1 envSchemaDown "Name"
      (.jobj [("Name", .jstr "Acme")]) (.jstr "Account") _ rfl,
   claim_C10_schema_fetch_every_segment.2.2.2 envSchemaDown
      (.jobj [("Name", .jstr "Acme")]) _ rfl⟩

/-- A schema whose `fields` member has object values is itself
non-nullish. -/
theorem nonNullish_of_objectValues_ok (sch : JVal) (descs : List JVal)
    (h : objectValues (sch.getMember "fields") = .ok descs) :
    sch.isNullish = false := by
  cases sch <;> first | rfl | exact nomatch h

/-- Unfolding of a successful hop: with a matching relationship field, a
truthy foreign key, a truthy target type and a read whose first result is
truthy, the hop performs exactly the one record read and hands the walk
the fetched record and the determined type. -/
theorem resolveHop_success (env : REnv) (sch : JVal) (f : String)
    (record : JVal) (descs : List JVal) (rf results : JVal)
    (h1 : objectValues (sch.getMember "fields") = .ok descs)
    (h2 : findRelationshipField f descs = .ok (some rf))
    (h3 : (record.getOpt (toPropKey (rf.getMember "name"))).truthy = true)
    (h4 : (hopRefType record (toPropKey (rf.getMember "name"))
            (rf.getMember "referenceTo")).truthy = true)
    (h5 : env.read
            (hopRefType record (toPropKey (rf.getMember "name"))
              (rf.getMember "referenceTo"))
            (record.getOpt (toPropKey (rf.getMember "name"))) = .ok results)
    (h6 : (results.getOpt "0").truthy = true) :
    resolveHop env sch f record =
      ([.readCall
          (hopRefType record (toPropKey (rf.getMember "name"))
            (rf.getMember "referenceTo"))
          (record.getOpt (toPropKey (rf.getMember "name")))],
       .next (results.getOpt "0")
         (hopRefType record (toPropKey (rf.getMember "name"))
           (rf.getMember "referenceTo"))) := by
  simp [resolveHop, nonNullish_of_objectValues_ok sch descs h1, h1, h2, h3, h4, h5, h6]

/-- C8: within one resolver invocation the collaborator calls are strictly
sequential — a hop that continues the walk contributes its schema fetch,
then its record read, and only then the trace of the remaining segments;
every hop's trace is at most one record read of the determined type; every
nonempty walk's first call is the schema fetch for the current type; and
on the claim's concrete example the walk resolves `"Carol"` with the trace
`[schema fetch for Contact, read of User 005X, schema fetch for User]`, in
that temporal order. -/
theorem claim_C8_schema_before_read_ordering :
    (∀ (env : REnv) (f : String) (rest : List String) (record ty sch : JVal)
       (tr : List REvent) (nr nt : JVal),
       env.getSchema ty = .ok sch → rest.isEmpty = false →
       resolveHop env sch f record = (tr, .next nr nt) →
       resolveGo env (f :: rest) record ty =
         (.schemaCall ty :: (tr ++ (resolveGo env rest nr nt).1),
          (resolveGo env rest nr nt).2)) ∧
    (∀ (env : REnv) (sch : JVal) (f : String) (record : JVal)
       (tr : List REvent) (nr nt : JVal),
       resolveHop env sch f record = (tr, .next nr nt) →
       ∃ i, tr = [.readCall nt i]) ∧
    (∀ (env : REnv) (f : String) (rest : List String) (record ty : JVal),
       ∃ tl, (resolveGo env (f :: rest) record ty).1 = .schemaCall ty :: tl) ∧
    (∀ (env : REnv) (sch2 : JVal),
       env.getSchema (.jstr "Contact") = .ok contactSchema →
       env.getSchema (.jstr "User") = .ok sch2 →
       env.read (.jstr "User") (.jstr "005X")
         = .ok (.jarr [.jobj [("Id", .jstr "005X"), ("Name", .jstr "Carol")]]) →
       resolveSOQLFieldPath env (.jobj [("OwnerId", .jstr "005X")])
           "Owner.Name" "Contact"
         = ([.schemaCall (.jstr "Contact"), .readCall (.jstr "User") (.jstr "005X"),
             .schemaCall (.jstr "User")], .ok (.jstr "Carol"))) := by
  refine ⟨?_, ?_, ?_, ?_⟩
  · intro env f rest record ty sch tr nr nt hg hre hh
    exact resolveGo_cons_hop_next env f rest record ty sch tr nr nt hg hre hh
  · intro env sch f record tr nr nt hh
    rcases resolveHop_cases env sch f record with
      ⟨e, h⟩ | h | ⟨t, i, e, h⟩ | ⟨t, i, h⟩ | ⟨t, i, nr2, h⟩ <;>
      rw [h] at hh <;>
      injection hh with h1 h2
    · exact nomatch h2
    · exact nomatch h2
    · exact nomatch h2
    · exact nomatch h2
    · injection h2 with h3 h4
      subst h4
      exact ⟨i, h1.symm⟩
  · intro env f rest record ty
    rcases hg : env.getSchema ty with e | sch
    · exact ⟨[], by rw [resolveGo_cons_err env f rest record ty e hg]⟩
    · cases hre : rest.isEmpty with
      | true =>
          have hnil : rest = [] := List.isEmpty_iff.mp hre
          subst hnil
          exact ⟨[], by rw [resolveGo_cons_leaf env f record ty sch hg]⟩
      | false =>
          rcases hh : resolveHop env sch f record with ⟨tr, ho⟩
          cases ho with
          | fail e =>
              exact ⟨tr, by
                rw [resolveGo_cons_hop env f rest record ty sch tr _ hg hre hh]⟩
          | nullOut =>
              exact ⟨tr, by
                rw [resolveGo_cons_hop env f rest record ty sch tr _ hg hre hh]⟩
          | next nr nt =>
              exact ⟨tr ++ (resolveGo env rest nr nt).1, by
                rw [resolveGo_cons_hop env f rest record ty sch tr _ hg hre hh]⟩
  · intro env sch2 h1 h2 h3
    have hhop : resolveHop env contactSchema "Owner"
        (.jobj [("OwnerId", .jstr "005X")])
        = ([.readCall (.jstr "User") (.jstr "005X")],
           .next (.jobj [("Id", .jstr "005X"), ("Name", .jstr "Carol")])
             (.jstr "User")) :=
      resolveHop_success env contactSchema "Owner"
        (.jobj [("OwnerId", .jstr "005X")]) _ _
        (.jarr [.jobj [("Id", .jstr "005X"), ("Name", .jstr "Carol")]])
        rfl rfl rfl rfl h3 rfl
    show resolveGo env ["Owner", "Name"] (.jobj [("OwnerId", .jstr "005X")])
        (.jstr "Contact") = _
    rw [resolveGo_cons_hop_next env "Owner" ["Name"]
      (.jobj [("OwnerId", .jstr "005X")]) (.jstr "Contact") contactSchema _ _ _
      h1 rfl hhop]
    rw [resolveGo_cons_leaf env "Name"
      (.jobj [("Id", .jstr "005X"), ("Name", .jstr "Carol")])
      (.jstr "User") sch2 h2]
    rfl

/-- Witness for C8: the concrete run of the claim's example under
`envOwner`: schema fetch for `Contact`, then the `User` read, then the
schema fetch for `User`, resolving `"Carol"`. -/
theorem claim_C8_schema_before_read_ordering_witness :
    resolveSOQLFieldPath envOwner (.jobj [("OwnerId", .jstr "005X")])
        "Owner.Name" "Contact"
      = ([.schemaCall (.jstr "Contact"), .readCall (.jstr "User") (.jstr "005X"),
          .schemaCall (.jstr "User")], .ok (.jstr "Carol")) :=
  claim_C8_schema_before_read_ordering.2.2.2 envOwner (.jobj []) rfl rfl rfl

/-- C2, evaluation of the code at the failing input.  The polymorphic
field `WhoId` declares `referenceTo ["Contact","Lead"]`, the record's
expanded-relationship hint names `"UnknownType"` — a type not among the
declared targets — yet the resolver reads the record store for
`UnknownType` (the hint is never validated against `referenceTo`,
pulsar.js lines 785-788) and, the store holding such a record, resolves
its `Name` instead of `null`.  The first two conjuncts exhibit the hint
and its absence from the declared targets; the third is the run. -/
theorem claim_C2_undeclared_hint_is_read :
    ((polyRecord.getOpt "WhoId__r").getOpt "attributes").getOpt "type"
      = .jstr "UnknownType" ∧
    (.jstr "UnknownType") ∉ [JVal.jstr "Contact", JVal.jstr "Lead"] ∧
    resolveSOQLFieldPath envPoly polyRecord "Who.Name" "Task"
      = ([.schemaCall (.jstr "Task"),
          .readCall (.jstr "UnknownType") (.jstr "999XYZ"),
          .schemaCall (.jstr "UnknownType")], .ok (.jstr "Impostor")) :=
  ⟨rfl, by simp, rfl⟩

end Pulsar
